import Mathlib

/-!
Verification development for the PCFactory mayorista monitor
(`mayorista_monitor.py`).  The Python source is shallowly embedded below:
cell values, the identifier-validity predicate, the description-emptiness
test, the approximate-stock parser, the per-product API interpreter, the
batch lookup, the spreadsheet filters and the final classifier are all
translated as executable Lean definitions, and the behavioural claims
about them are settled as theorems at the end of the file.

Modelling conventions, shared by all definitions:
* Python `None` / pandas `NaN` missing cells are one constructor
  (`CellVal.vNone`); at every call site of the program the two behave
  identically (`pd.isna` is true for both, both render to a short string,
  both are unparseable as numbers).
* Python exceptions are explicit: fallible code returns `Except PyExn`.
* `float(...)` of a string is modelled by an exact decimal/inf/nan
  grammar (sign, digits, optional point, optional exponent, the literals
  inf/infinity/nan); binary rounding of the IEEE double and the
  overflow-to-infinity of astronomically large literals are abstracted —
  finite decimal literals are kept exact.  Numeric-literal underscores
  are not modelled.  `float()` trims surrounding whitespace and is
  case-insensitive in the letters it accepts, modelled by stripping and
  lowercasing the string before the grammar.
* Strings are processed as `List Char`; Python `len` counts characters,
  which matches `List.length` on the decoded characters.
-/

deriving instance DecidableEq for Except

/-- Python exceptions distinguished by the monitor's `except` clauses. -/
inductive PyExn where
  | valueError
  | typeError
  | overflowError
deriving DecidableEq, Repr

/-- A spreadsheet / JSON cell as the monitor sees it: missing (None/NaN),
a string, or an integer-valued number. -/
inductive CellVal where
  | vNone
  | vStr (s : String)
  | vInt (n : Int)
deriving DecidableEq, Repr

/-- Model of `pd.isna`: true exactly on the missing cell. -/
def pdIsna : CellVal → Bool
  | .vNone => true
  | _ => false

/-- Model of Python `str(...)` on a cell value (`str(None) = "None"`,
integers render in decimal). -/
def pyStr : CellVal → String
  | .vNone => "None"
  | .vStr s => s
  | .vInt n => toString n

/-- Whitespace characters stripped by Python `str.strip()` (ASCII
space, tab, newline, carriage return, vertical tab, form feed). -/
def isPySpace (c : Char) : Bool :=
  c.toNat = 32 || c.toNat = 9 || c.toNat = 10 || c.toNat = 13 ||
  c.toNat = 11 || c.toNat = 12

/-- Model of Python `str.strip()`: drop leading and trailing whitespace. -/
def stripList (l : List Char) : List Char :=
  ((l.dropWhile isPySpace).reverse.dropWhile isPySpace).reverse

/-- Model of Python `str.lower()` restricted to ASCII letters (the only
letters the monitor's strings contain). -/
def lowerList (l : List Char) : List Char :=
  l.map Char.toLower

/-- Numeric value of a digit run (most significant first). -/
def digitsNat (l : List Char) : Nat :=
  l.foldl (fun a c => a * 10 + (c.toNat - 48)) 0

/-- Checks that a digit run is non-empty and all decimal digits. -/
def allDigits (l : List Char) : Bool :=
  !l.isEmpty && l.all Char.isDigit

/-- Model of Python `int(...)` on a string: strip whitespace, optional
single sign, then decimal digits; anything else raises `ValueError`,
modelled as `none`. -/
def pyIntOfStr (l : List Char) : Option Int :=
  match stripList l with
  | [] => none
  | c :: ds =>
    if c = '+' then (if allDigits ds then some (digitsNat ds) else none)
    else if c = '-' then (if allDigits ds then some (-(digitsNat ds : Int)) else none)
    else if allDigits (c :: ds) then some (digitsNat (c :: ds)) else none

/-- Value of a Python float as the monitor needs it: an exact decimal
`m * 10 ^ e`, an infinity, or nan. -/
inductive PyFloat where
  | finite (m : Int) (e : Int)
  | inf
  | negInf
  | nan
deriving DecidableEq, Repr

/-- Negation of a parsed float magnitude (for a leading minus sign). -/
def PyFloat.negate : PyFloat → PyFloat
  | .finite m e => .finite (-m) e
  | .inf => .negInf
  | .negInf => .inf
  | .nan => .nan

/-- Decimal part of the float grammar: `digits [. digits] [e [sign] digits]`
with at least one digit in the mantissa. -/
def floatDec (l : List Char) : Option PyFloat :=
  let ip := l.takeWhile Char.isDigit
  let r1 := l.dropWhile Char.isDigit
  let fr :=
    match r1 with
    | '.' :: t => (t.takeWhile Char.isDigit, t.dropWhile Char.isDigit)
    | _ => ([], r1)
  let fp := fr.1
  let r2 := fr.2
  if ip.isEmpty && fp.isEmpty then none
  else
    let mant : Int := digitsNat (ip ++ fp)
    match r2 with
    | [] => some (.finite mant (-(fp.length : Int)))
    | 'e' :: t =>
      let es :=
        match t with
        | '+' :: u => ((1 : Int), u)
        | '-' :: u => ((-1 : Int), u)
        | u => ((1 : Int), u)
      if allDigits es.2 then
        some (.finite mant (es.1 * digitsNat es.2 - (fp.length : Int)))
      else none
    | _ => none

/-- Unsigned part of the float grammar: the literals inf/infinity/nan or a
decimal literal. -/
def floatMag (l : List Char) : Option PyFloat :=
  if l = "inf".toList || l = "infinity".toList then some .inf
  else if l = "nan".toList then some .nan
  else floatDec l

/-- Core grammar of Python `float(...)` on an already stripped, lowercased
string: optional sign, then magnitude.  `none` models a `ValueError`. -/
def floatCore (l : List Char) : Option PyFloat :=
  match l with
  | '+' :: rest => floatMag rest
  | '-' :: rest => (floatMag rest).map PyFloat.negate
  | _ => floatMag l

/-- Model of Python `int(...)` applied to a float: truncation toward zero;
`int(nan)` raises `ValueError`, `int(±inf)` raises `OverflowError`. -/
def pyTrunc : PyFloat → Except PyExn Int
  | .nan => .error .valueError
  | .inf => .error .overflowError
  | .negInf => .error .overflowError
  | .finite m e =>
    if 0 ≤ e then .ok (m * (10 : Int) ^ e.toNat)
    else if 0 ≤ m then .ok ((m.natAbs / 10 ^ e.natAbs : Nat) : Int)
    else .ok (-((m.natAbs / 10 ^ e.natAbs : Nat) : Int))

/-- Model of Python `float(value)` on a cell: `float(None)` raises
`TypeError`; strings go through the grammar (with the whitespace
trimming and case folding `float` itself performs); a number converts to
its exact value (modelled through its decimal rendering, which is the
same composite expression and keeps the two call sites of the source
aligned). -/
def pyFloatOfVal (v : CellVal) : Except PyExn PyFloat :=
  match v with
  | .vNone => .error .typeError
  | _ =>
    match floatCore (lowerList (stripList (pyStr v).toList)) with
    | some f => .ok f
    | none => .error .valueError

/-- Sentinel tokens treated as "no identifier" by `is_valid_pcf_id`. -/
def pcfSentinels : List (List Char) :=
  ["sin id".toList, "n/a".toList, "na".toList, "-".toList, "none".toList]

/-- Translation of `is_valid_pcf_id` (mayorista_monitor.py:153-163):
reject missing or blank values, reject the sentinel tokens after
trimming and lowercasing, then attempt `int(float(s))`; a `ValueError`
or `TypeError` is caught and yields `False`, but any other exception
(notably the `OverflowError` from `int(float("inf"))`) escapes.  The
string passed to `float` is already stripped and lowercased, so the core
grammar applies directly. -/
def is_valid_pcf_id (val : CellVal) : Except PyExn Bool :=
  if pdIsna val || (stripList (pyStr val).toList).isEmpty then .ok false
  else if lowerList (stripList (pyStr val).toList) ∈ pcfSentinels then .ok false
  else
    match floatCore (lowerList (stripList (pyStr val).toList)) with
    | none => .ok false
    | some f =>
      match pyTrunc f with
      | .ok _ => .ok true
      | .error .valueError => .ok false
      | .error .typeError => .ok false
      | .error e => .error e

/-- The identifier-validity predicate as the specification words it: the
field value is present, non-blank after trimming, not a case-insensitive
sentinel token, and parses as a floating-point number that truncates to
an integer without error. -/
def pcf_id_valid_spec (v : CellVal) : Bool :=
  !pdIsna v &&
    !(stripList (pyStr v).toList).isEmpty &&
    !decide (lowerList (stripList (pyStr v).toList) ∈ pcfSentinels) &&
    (match floatCore (lowerList (stripList (pyStr v).toList)) with
     | none => false
     | some f =>
       match pyTrunc f with
       | .ok _ => true
       | .error _ => false)

/-- Translation of the pre-submission conversion `int(float(pcf_id))` in
`check_products_batch` (mayorista_monitor.py:292-295): `ValueError` and
`TypeError` are caught and skip the row (`.ok none`); any other
exception escapes. -/
def convert_id (v : CellVal) : Except PyExn (Option Int) :=
  match pyFloatOfVal v with
  | .error .valueError => .ok none
  | .error .typeError => .ok none
  | .error e => .error e
  | .ok f =>
    match pyTrunc f with
    | .ok n => .ok (some n)
    | .error .valueError => .ok none
    | .error .typeError => .ok none
    | .error e => .error e

/-- The successfully converted identifier of a row (0 when the
conversion does not yield a value; only used under the validity
precondition, where it always does). -/
def converted_pcf_id (v : CellVal) : Int :=
  match convert_id v with
  | .ok (some n) => n
  | _ => 0

/-- One step of `re.sub(r'<[^>]+>', '', s)` (mayorista_monitor.py:195):
at a `<`, the pattern matches up to the first later `>` provided at
least one character lies between them; otherwise the `<` is kept and
scanning resumes at the next character.  The fuel argument bounds the
recursion; the input length always suffices since every step consumes at
least one character. -/
def stripTagsAux : Nat → List Char → List Char
  | 0, l => l
  | _ + 1, [] => []
  | fuel + 1, c :: rest =>
    if c = '<' then
      match rest.findIdx? (fun x => x = '>') with
      | some 0 => '<' :: stripTagsAux fuel rest
      | some (k + 1) => stripTagsAux fuel (rest.drop (k + 2))
      | none => '<' :: stripTagsAux fuel rest
    else c :: stripTagsAux fuel rest

/-- Removes every HTML tag, as the source's regular expression does. -/
def stripTags (l : List Char) : List Char :=
  stripTagsAux l.length l

@[simp] theorem stripTags_nil : stripTags [] = [] := rfl

@[simp] theorem stripList_nil : stripList [] = [] := rfl

/-- Python truthiness of a cell value (`if not description:`): None, the
empty string and the number 0 are falsy. -/
def pyFalsy : CellVal → Bool
  | .vNone => true
  | .vStr s => s == ""
  | .vInt n => n == 0

/-- Translation of `is_description_empty` (mayorista_monitor.py:187-196):
falsy or blank descriptions are empty; otherwise the HTML tags are
stripped from the trimmed text and the description is empty when fewer
than 20 characters remain after trimming again. -/
def is_description_empty (d : CellVal) : Bool :=
  if pyFalsy d then true
  else if (stripList (pyStr d).toList).isEmpty then true
  else decide ((stripList (stripTags (stripList (pyStr d).toList))).length < 20)

/-- The "remaining plain text" of a description as the specification
words it: the rendered description with HTML markup stripped and the
surrounding whitespace trimmed (the glossary counts "characters of
content"). -/
def descPlainText (v : CellVal) : List Char :=
  stripList (stripTags (stripList (pyStr v).toList))

/-- Raw stock field of an API response: JSON null, a record whose
`aproximado` entry may be present or absent, or a bare scalar. -/
inductive StockData where
  | noneVal
  | dict (aproximado : Option CellVal)
  | scalar (v : CellVal)
deriving DecidableEq, Repr

/-- String branch of `parse_stock_aproximado`: trim, then either parse
the digits after a leading `+` or parse the whole string, with any
`ValueError` from `int()` caught and turned into 0. -/
def parse_stock_str (aprox0 : List Char) : Int :=
  if (stripList aprox0).head? = some '+' then
    (pyIntOfStr ((stripList aprox0).drop 1)).getD 0
  else (pyIntOfStr (stripList aprox0)).getD 0

/-- Translation of `parse_stock_aproximado` (mayorista_monitor.py:198-214):
`None` maps to 0, a record contributes its `aproximado` field (default
"0"), a scalar contributes itself; the value is rendered to a string and
parsed by `parse_stock_str`. -/
def parse_stock_aproximado : StockData → Int
  | .noneVal => 0
  | .dict a => parse_stock_str (pyStr (a.getD (.vStr "0"))).toList
  | .scalar v => parse_stock_str (pyStr v).toList

/-- Lookup outcome tag of a product query. -/
inductive ApiStatus where
  | ok
  | not_found
  | error
deriving DecidableEq, Repr

/-- The fields of the result record built by `check_product_api` that the
classifier reads.  The display name, the two prices, the raw stock
string and the error message text are carried by the source's record as
well but never influence classification; only the error message is kept
here (for the error branches), the purely presentational fields are
omitted. -/
structure ApiFields where
  api_status : ApiStatus
  mayorista : Option Bool
  stock_pcf : Option Int
  ficha_vacia : Option Bool
  error_msg : String
deriving DecidableEq, Repr

/-- What the HTTP layer hands `check_product_api` for one identifier:
a parsed 2xx JSON body (its `mayorista` flag — absent defaults to false,
folded into the Bool — its stock object and its description), a 404, a
different failure status, or a raised `requests.RequestException`. -/
inductive HttpResponse where
  | success (mayorista : Bool) (stock : StockData) (descripcion : CellVal)
  | notFound
  | httpError (status : Nat)
  | requestExn (msg : String)
deriving DecidableEq, Repr

/-- Translation of `check_product_api` (mayorista_monitor.py:216-285)
response interpretation: success parses the stock and derives the
description-emptiness flag; 404 yields the not-found record (visible
false, stock 0, empty sheet); any other status or a request exception
yields the error record with every derived field set to the unknown
sentinel `none`.  The politeness pause and the Retry-After sleep are
timing behaviour with no effect on the returned record and are not
modelled. -/
def check_product_api : HttpResponse → ApiFields
  | .success m sd d =>
    ⟨.ok, some m, some (parse_stock_aproximado sd), some (is_description_empty d), ""⟩
  | .notFound => ⟨.not_found, some false, some 0, some true, ""⟩
  | .httpError st => ⟨.error, none, none, none, "HTTP " ++ toString st⟩
  | .requestExn msg => ⟨.error, none, none, none, msg⟩

/-- One row of the price file, with the named columns the monitor reads
(COL_* constants, mayorista_monitor.py:39-48).  The available quantity
is `none` when the cell is missing (`fillna(0)` treats it as 0) and the
creation reason is `none` when missing (`na=False` in the clearance
test). -/
structure Row where
  ingram_part : String
  description : CellVal
  vendor_name : String
  vendor_part : String
  customer_price : Int
  available_qty : Option Int
  creation_reason : Option String
  category : String
  subcategory : String
  pcf_id : CellVal
deriving DecidableEq, Repr

/-- Stock filter of `apply_xlsx_filters`: `df[COL_AVAILABLE_QTY].fillna(0) > 0`. -/
def rowHasStock (r : Row) : Bool :=
  decide (0 < r.available_qty.getD 0)

/-- Bool test for one list occurring inside another (used for the
substring test of pandas `str.contains`). -/
def containsSub (pat : List Char) : List Char → Bool
  | [] => pat.isEmpty
  | c :: t => pat.isPrefixOf (c :: t) || containsSub pat t

/-- Clearance filter of `apply_xlsx_filters`:
`str.contains('CLEARANCE', case=False, na=False)` — a missing creation
reason counts as not containing the tag, and the test is
case-insensitive (both sides lowered, the pattern being lowercased to
"clearance"). -/
def rowIsClearance (r : Row) : Bool :=
  match r.creation_reason with
  | none => false
  | some s => containsSub "clearance".toList (lowerList s.toList)

/-- Boolean mask value of `is_valid_pcf_id` for a row whose check did not
raise (used to split the eligible rows). -/
def validOkBool (r : Row) : Bool :=
  match is_valid_pcf_id r.pcf_id with
  | .ok b => b
  | .error _ => false

/-- The record returned by `apply_xlsx_filters` (the keys of its result
dictionary, mayorista_monitor.py:171-181). -/
structure XlsxStats where
  total : Nat
  sin_stock_ingram : Nat
  has_stock : List Row
  sin_stock_df : List Row
  clearance : Nat
  clearance_products : List Row
  eligible_xlsx : List Row
  has_pcf_id : List Row
  no_pcf_id : List Row
deriving DecidableEq, Repr

/-- Translation of `apply_xlsx_filters` (mayorista_monitor.py:139-181).
The pandas boolean masks become list filters in row order.  The
`.apply(is_valid_pcf_id)` raises as soon as one identifier raises, which
the model reports as that first exception; otherwise the eligible rows
split on the returned mask. -/
def apply_xlsx_filters (rows : List Row) : Except PyExn XlsxStats :=
  let has_stock := rows.filter rowHasStock
  let sin_stock_df := rows.filter (fun r => decide (r.available_qty.getD 0 ≤ 0))
  let clearance_products := has_stock.filter rowIsClearance
  let eligible_xlsx := has_stock.filter (fun r => !rowIsClearance r)
  match eligible_xlsx.findSome?
      (fun r =>
        match is_valid_pcf_id r.pcf_id with
        | .error e => some e
        | .ok _ => none) with
  | some e => .error e
  | none =>
    .ok
      { total := rows.length
        sin_stock_ingram := rows.length - has_stock.length
        has_stock := has_stock
        sin_stock_df := sin_stock_df
        clearance := clearance_products.length
        clearance_products := clearance_products
        eligible_xlsx := eligible_xlsx
        has_pcf_id := eligible_xlsx.filter validOkBool
        no_pcf_id := eligible_xlsx.filter (fun r => !validOkBool r) }

/-- One entry of the list returned by `check_products_batch`: the
converted identifier, the source row whose columns the entry copies, and
the merged API fields. -/
structure ResultItem where
  pcf_id : Int
  row : Row
  api : ApiFields
deriving DecidableEq, Repr

/-- Task-building loop of `check_products_batch`
(mayorista_monitor.py:290-296): each row's identifier goes through
`int(float(...))`; a caught `ValueError`/`TypeError` skips the row, any
other exception aborts the run. -/
def batch_tasks : List Row → Except PyExn (List (Int × Row))
  | [] => .ok []
  | r :: rest => do
    let t ← convert_id r.pcf_id
    let ts ← batch_tasks rest
    match t with
    | none => .ok ts
    | some pid => .ok ((pid, r) :: ts)

/-- Translation of `check_products_batch` (mayorista_monitor.py:287-333).
The remote behaviour is an oracle from identifier to HTTP outcome; each
task yields exactly one merged result record.  The thread pool returns
results in completion order, a permutation of this submission-order
list; every claim below is per-row, hence order-independent, so the
model keeps submission order.  The `except` around `future.result()`
(an exception escaping a worker) is subsumed by the oracle's
`requestExn` outcome, which produces the identical error record. -/
def check_products_batch (oracle : Int → HttpResponse) (rows : List Row) :
    Except PyExn (List ResultItem) :=
  match batch_tasks rows with
  | .error e => .error e
  | .ok tasks => .ok (tasks.map (fun t => ⟨t.1, t.2, check_product_api (oracle t.1)⟩))

/-- The seven outcome buckets of the classifier (the six lists built by
`classify_products`, with `need_creation` holding both API items and
identifier-less rows). -/
inductive Bucket where
  | publish_ready
  | missing_ficha
  | need_creation
  | already_mayorista
  | has_pcf_stock
  | api_errors
deriving DecidableEq, Repr

/-- The `is not None and > 0` stock test of the classifier. -/
def stockPos : Option Int → Bool
  | some n => decide (0 < n)
  | none => false

/-- Python truthiness of `item.get("ficha_vacia", False)`: an absent or
`None` value is falsy. -/
def fichaTruthy (o : Option Bool) : Bool :=
  o.getD false

/-- The ordered first-match tests of the classifier loop
(mayorista_monitor.py:353-370): error, then not-found, then visibility,
then own stock, then description emptiness. -/
def bucketOf (i : ResultItem) : Bucket :=
  if i.api.api_status = .error then .api_errors
  else if i.api.api_status = .not_found then .need_creation
  else if i.api.mayorista = some true then .already_mayorista
  else if stockPos i.api.stock_pcf then .has_pcf_stock
  else if fichaTruthy i.api.ficha_vacia then .missing_ficha
  else .publish_ready

/-- The six item lists built by the classifier loop. -/
structure ApiBuckets where
  publish_ready : List ResultItem
  missing_ficha : List ResultItem
  need_creation : List ResultItem
  already_mayorista : List ResultItem
  has_pcf_stock : List ResultItem
  api_errors : List ResultItem
deriving DecidableEq, Repr

/-- The classifier loop over the API results: the source's if/elif chain
is `bucketOf` (the identical ordered tests); each item is appended to
the chosen list, and recursing on the tail while prepending the head
preserves encounter order. -/
def classify_api : List ResultItem → ApiBuckets
  | [] => ⟨[], [], [], [], [], []⟩
  | i :: rest =>
    let c := classify_api rest
    match bucketOf i with
    | .publish_ready => { c with publish_ready := i :: c.publish_ready }
    | .missing_ficha => { c with missing_ficha := i :: c.missing_ficha }
    | .need_creation => { c with need_creation := i :: c.need_creation }
    | .already_mayorista => { c with already_mayorista := i :: c.already_mayorista }
    | .has_pcf_stock => { c with has_pcf_stock := i :: c.has_pcf_stock }
    | .api_errors => { c with api_errors := i :: c.api_errors }

/-- The value returned by `classify_products`.  The source stores the
identifier-less rows (appended after the loop, as dictionaries with
`pcf_id = None`) in the same `need_creation` list as the API items; the
two entry shapes differ, so the model keeps them as the two components
`need_creation` (API part, in loop order) and `need_creation_rows`
(appended row part). -/
structure Classification where
  publish_ready : List ResultItem
  missing_ficha : List ResultItem
  need_creation : List ResultItem
  need_creation_rows : List Row
  already_mayorista : List ResultItem
  has_pcf_stock : List ResultItem
  api_errors : List ResultItem
deriving DecidableEq, Repr

/-- Translation of `classify_products` (mayorista_monitor.py:339-393). -/
def classify_products (api_results : List ResultItem) (df_no_pcf_id : List Row) :
    Classification :=
  let b := classify_api api_results
  { publish_ready := b.publish_ready
    missing_ficha := b.missing_ficha
    need_creation := b.need_creation
    need_creation_rows := df_no_pcf_id
    already_mayorista := b.already_mayorista
    has_pcf_stock := b.has_pcf_stock
    api_errors := b.api_errors }

/-- Data source selected by `--source`. -/
inductive Source where
  | gsheet
  | localFile
deriving DecidableEq, Repr

/-- What a run produces when it terminates normally. -/
inductive Artifact where
  | placeholder
  | dashboard
deriving DecidableEq, Repr

/-- How a run can die with an unhandled exception. -/
inductive RunError where
  | sourceParse
  | pyErr (e : PyExn)
deriving DecidableEq, Repr

/-- Input-source handling of `main` (mayorista_monitor.py:1346-1383),
with the data boundary abstracted: `gsheet` is the outcome of
`read_google_sheet` (its internal try/except re-raises, and `main`
catches any exception and writes the placeholder dashboard);
`local_file` is `none` when no price file matches the pattern (again the
placeholder is written) and otherwise carries the outcome of
`read_price_file`, whose parse failure is caught nowhere and escapes as
an unhandled exception.  A successfully read frame proceeds into
`apply_xlsx_filters` (whose own exception also escapes); the remainder
of the pipeline — API calls, classification, rendering — always
terminates with a written dashboard and is abstracted as `dashboard`. -/
def run_monitor (src : Source) (gsheet : Except String (List Row))
    (local_file : Option (Except String (List Row))) : Except RunError Artifact :=
  let pipeline : List Row → Except RunError Artifact := fun df =>
    match apply_xlsx_filters df with
    | .ok _ => .ok .dashboard
    | .error e => .error (.pyErr e)
  match src with
  | .gsheet =>
    match gsheet with
    | .error _ => .ok .placeholder
    | .ok df => pipeline df
  | .localFile =>
    match local_file with
    | none => .ok .placeholder
    | some (.error _) => .error .sourceParse
    | some (.ok df) => pipeline df

/-- C3: the identifier-validity predicate accepts a value exactly when
it is present and non-blank after trimming, is not one of the
case-insensitive sentinel tokens, and parses as a floating-point number
that truncates to an integer without error; and on the claim's examples
"123" and "123.0" are valid, both converting to 123, while "Sin ID",
"N/A", the empty string, a missing value and "ABC123" are invalid. -/
theorem pcf_id_validity_characterization :
    (∀ v, is_valid_pcf_id v = .ok true ↔ pcf_id_valid_spec v = true) ∧
    is_valid_pcf_id (.vStr "123") = .ok true ∧
    is_valid_pcf_id (.vStr "123.0") = .ok true ∧
    convert_id (.vStr "123") = .ok (some 123) ∧
    convert_id (.vStr "123.0") = .ok (some 123) ∧
    is_valid_pcf_id (.vStr "Sin ID") = .ok false ∧
    is_valid_pcf_id (.vStr "N/A") = .ok false ∧
    is_valid_pcf_id (.vStr "") = .ok false ∧
    is_valid_pcf_id .vNone = .ok false ∧
    is_valid_pcf_id (.vStr "ABC123") = .ok false := by
  refine ⟨fun v => ?_, by decide, by decide, by decide, by decide, by decide,
    by decide, by decide, by decide, by decide⟩
  cases hna : pdIsna v with
  | true => simp [is_valid_pcf_id, pcf_id_valid_spec, hna]
  | false =>
    by_cases hb : stripList (pyStr v).data = []
    · simp [is_valid_pcf_id, pcf_id_valid_spec, hna, hb]
    · by_cases hs : lowerList (stripList (pyStr v).data) ∈ pcfSentinels
      · simp [is_valid_pcf_id, pcf_id_valid_spec, hna, hb, hs]
      · cases hf : floatCore (lowerList (stripList (pyStr v).data)) with
        | none => simp [is_valid_pcf_id, pcf_id_valid_spec, hna, hb, hs, hf]
        | some f =>
          cases ht : pyTrunc f with
          | ok n => simp [is_valid_pcf_id, pcf_id_valid_spec, hna, hb, hs, hf, ht]
          | error e =>
            cases e <;> simp [is_valid_pcf_id, pcf_id_valid_spec, hna, hb, hs, hf, ht]

/-- C5 (code slip): the identifier "inf" (likewise "Infinity" and
"-inf") parses as an infinite float, whose truncation raises an
`OverflowError` that the source's `except (ValueError, TypeError)`
clause does not catch — the check raises instead of returning a
boolean. -/
theorem pcf_id_check_raises_on_inf :
    is_valid_pcf_id (.vStr "inf") = .error .overflowError ∧
    is_valid_pcf_id (.vStr "Infinity") = .error .overflowError ∧
    is_valid_pcf_id (.vStr "-inf") = .error .overflowError := by
  refine ⟨by decide, by decide, by decide⟩

/-- C4: stock-approximation parsing is total on success outcomes — a
"+"-prefixed value parses to the number after the prefix, a plain
numeral parses directly, and absent, empty or unparseable values
normalize to 0 — while both error outcomes of the product lookup carry
the unknown sentinel in the stock field, never 0. -/
theorem stock_parse_success_total_error_unknown :
    parse_stock_aproximado (.scalar (.vStr "+15")) = 15 ∧
    parse_stock_aproximado (.dict (some (.vStr "+15"))) = 15 ∧
    parse_stock_aproximado (.scalar (.vStr "7")) = 7 ∧
    parse_stock_aproximado (.scalar (.vStr "")) = 0 ∧
    parse_stock_aproximado .noneVal = 0 ∧
    parse_stock_aproximado (.dict none) = 0 ∧
    parse_stock_aproximado (.dict (some .vNone)) = 0 ∧
    parse_stock_aproximado (.scalar (.vStr "garbage")) = 0 ∧
    (∀ m sd d, (check_product_api (.success m sd d)).stock_pcf =
      some (parse_stock_aproximado sd)) ∧
    (∀ st, (check_product_api (.httpError st)).stock_pcf = none) ∧
    (∀ msg, (check_product_api (.requestExn msg)).stock_pcf = none) := by
  refine ⟨by decide, by decide, by decide, by decide, by decide, by decide,
    by decide, by decide, fun m sd d => rfl, fun st => rfl, fun msg => rfl⟩

/-- C9: a description is substantive exactly when its remaining plain
text — the rendered text with HTML markup stripped and surrounding
whitespace trimmed — has at least 20 characters; "&lt;b&gt;&lt;/b&gt;"
strips to nothing and is empty, a 25-character plain text is not empty,
and missing or blank descriptions are empty. -/
theorem description_emptiness_characterization :
    (∀ v, is_description_empty v = false ↔ 20 ≤ (descPlainText v).length) ∧
    is_description_empty (.vStr "<b></b>") = true ∧
    is_description_empty (.vStr "aaaaabbbbbcccccdddddeeeee") = false ∧
    is_description_empty .vNone = true ∧
    is_description_empty (.vStr "") = true ∧
    is_description_empty (.vStr "   ") = true := by
  refine ⟨fun v => ?_, by decide, by decide, by decide, by decide, by decide⟩
  cases v with
  | vNone => decide
  | vStr s =>
    by_cases he : s = ""
    · subst he; decide
    · have hfal : pyFalsy (.vStr s) = false := by simp [pyFalsy, he]
      by_cases hb : stripList s.data = []
      · have h1 : is_description_empty (.vStr s) = true := by
          simp [is_description_empty, pyStr, hfal, hb]
        have h2 : (descPlainText (.vStr s)).length = 0 := by
          simp [descPlainText, pyStr, hb]
        simp [h1, h2]
      · simp [is_description_empty, descPlainText, pyStr, hfal, hb, Nat.not_lt]
  | vInt n =>
    by_cases hz : n = 0
    · subst hz; decide
    · have hfal : pyFalsy (.vInt n) = false := by simp [pyFalsy, hz]
      by_cases hb : stripList (toString n).data = []
      · have h1 : is_description_empty (.vInt n) = true := by
          simp [is_description_empty, pyStr, hfal, hb]
        have h2 : (descPlainText (.vInt n)).length = 0 := by
          simp [descPlainText, pyStr, hb]
        simp [h1, h2]
      · simp [is_description_empty, descPlainText, pyStr, hfal, hb, Nat.not_lt]

/-- When the string handed to the Python `int()` call does not begin
with a minus sign (after the whitespace trimming `int()` performs), the
parsed value defaulted to 0 is non-negative. -/
theorem pyIntOfStr_nonneg (l : List Char) (h : (stripList l).head? ≠ some '-') :
    0 ≤ (pyIntOfStr l).getD 0 := by
  unfold pyIntOfStr
  cases hl : stripList l with
  | nil => simp
  | cons c ds =>
    rw [hl] at h
    by_cases hp : c = '+'
    · subst hp
      by_cases hd : allDigits ds = true
      · simp [hd]
      · simp [hd]
    · by_cases hm : c = '-'
      · subst hm; simp at h
      · by_cases hd : allDigits (c :: ds) = true
        · simp [hp, hm, hd]
        · simp [hp, hm, hd]

/-- Raw stock text whose trimmed form, after skipping a single leading
"+", does not begin with a minus sign. -/
def stock_sign_ok (l : List Char) : Bool :=
  if (stripList l).head? = some '+' then
    !decide ((stripList ((stripList l).drop 1)).head? = some '-')
  else !decide ((stripList (stripList l)).head? = some '-')

/-- The non-negativity condition lifted to the raw stock field. -/
def stock_raw_sign_ok : StockData → Bool
  | .noneVal => true
  | .dict a => stock_sign_ok (pyStr (a.getD (.vStr "0"))).toList
  | .scalar v => stock_sign_ok (pyStr v).toList

/-- C8 amended: the stock parser yields a non-negative value for every
raw stock field that does not carry a negative numeral (trimmed, after
an optional leading "+", the text does not begin with "-"); a negative
numeral such as "-5" is passed through as its negative value. -/
theorem stock_parse_nonneg_amended (sd : StockData)
    (h : stock_raw_sign_ok sd = true) : 0 ≤ parse_stock_aproximado sd := by
  cases sd with
  | noneVal => simp [parse_stock_aproximado]
  | dict a =>
    simp only [stock_raw_sign_ok, stock_sign_ok] at h
    simp only [parse_stock_aproximado, parse_stock_str]
    by_cases hp :
        (stripList (pyStr (a.getD (.vStr "0"))).toList).head? = some '+'
    · rw [if_pos hp] at h ⊢
      simp only [Bool.not_eq_true', decide_eq_false_iff_not] at h
      exact pyIntOfStr_nonneg _ h
    · rw [if_neg hp] at h ⊢
      simp only [Bool.not_eq_true', decide_eq_false_iff_not] at h
      exact pyIntOfStr_nonneg _ h
  | scalar v =>
    simp only [stock_raw_sign_ok, stock_sign_ok] at h
    simp only [parse_stock_aproximado, parse_stock_str]
    by_cases hp : (stripList (pyStr v).toList).head? = some '+'
    · rw [if_pos hp] at h ⊢
      simp only [Bool.not_eq_true', decide_eq_false_iff_not] at h
      exact pyIntOfStr_nonneg _ h
    · rw [if_neg hp] at h ⊢
      simp only [Bool.not_eq_true', decide_eq_false_iff_not] at h
      exact pyIntOfStr_nonneg _ h

/-- Witness for the amended C8 theorem at the raw value "+15". -/
theorem stock_parse_nonneg_amended_witness :
    stock_raw_sign_ok (.scalar (.vStr "+15")) = true ∧
    0 ≤ parse_stock_aproximado (.scalar (.vStr "+15")) :=
  ⟨by decide, stock_parse_nonneg_amended _ (by decide)⟩

/-- C8 fails as stated: a raw stock value of "-5" on a success outcome
parses to the negative value -5, so the stock parser can yield a
negative stock count. -/
theorem stock_parse_negative_counterexample :
    parse_stock_aproximado (.scalar (.vStr "-5")) = -5 ∧
    parse_stock_aproximado (.scalar (.vStr "-5")) < 0 ∧
    (check_product_api (.success false (.scalar (.vStr "-5")) .vNone)).stock_pcf =
      some (-5) := by
  refine ⟨by decide, by decide, by decide⟩

/-- Boolean complement of the stock filter agrees with the source's
second mask `fillna(0) <= 0`. -/
theorem not_rowHasStock_eq (r : Row) :
    (!rowHasStock r) = decide (r.available_qty.getD 0 ≤ 0) := by
  simp only [rowHasStock, ← decide_not, decide_eq_decide]
  omega

/-- C2: whenever the spreadsheet filters complete (no identifier check
raises), the out-of-stock, clearance, valid-identifier and
invalid-identifier parts form a permutation of the input rows — every
row lands in exactly one part, none is duplicated or dropped — so the
part sizes sum to the total row count, which is also the reported
total. -/
theorem xlsx_filters_partition (rows : List Row) (res : XlsxStats)
    (h : apply_xlsx_filters rows = .ok res) :
    (res.sin_stock_df ++ res.clearance_products ++ res.has_pcf_id ++
      res.no_pcf_id).Perm rows ∧
    res.sin_stock_df.length + res.clearance_products.length +
      res.has_pcf_id.length + res.no_pcf_id.length = rows.length ∧
    res.total = rows.length := by
  simp only [apply_xlsx_filters] at h
  split at h
  · exact absurd h (by simp)
  · injection h with h2
    subst h2
    have e1 : rows.filter (fun r => !rowHasStock r) =
        rows.filter (fun r => decide (r.available_qty.getD 0 ≤ 0)) :=
      List.filter_congr (fun r _ => not_rowHasStock_eq r)
    have p1 : List.Perm (rows.filter rowHasStock ++
        rows.filter (fun r => decide (r.available_qty.getD 0 ≤ 0))) rows := by
      rw [← e1]; exact List.filter_append_perm _ _
    have p2 : List.Perm ((rows.filter rowHasStock).filter rowIsClearance ++
        (rows.filter rowHasStock).filter (fun r => !rowIsClearance r))
        (rows.filter rowHasStock) := List.filter_append_perm _ _
    have p3 : List.Perm (((rows.filter rowHasStock).filter
          (fun r => !rowIsClearance r)).filter validOkBool ++
        ((rows.filter rowHasStock).filter
          (fun r => !rowIsClearance r)).filter (fun r => !validOkBool r))
        ((rows.filter rowHasStock).filter (fun r => !rowIsClearance r)) :=
      List.filter_append_perm _ _
    have inner : List.Perm ((rows.filter rowHasStock).filter rowIsClearance ++
        (((rows.filter rowHasStock).filter
            (fun r => !rowIsClearance r)).filter validOkBool ++
          ((rows.filter rowHasStock).filter
            (fun r => !rowIsClearance r)).filter (fun r => !validOkBool r)))
        (rows.filter rowHasStock) :=
      (List.Perm.append_left _ p3).trans p2
    have outer : List.Perm
        (rows.filter (fun r => decide (r.available_qty.getD 0 ≤ 0)) ++
        ((rows.filter rowHasStock).filter rowIsClearance ++
          (((rows.filter rowHasStock).filter
              (fun r => !rowIsClearance r)).filter validOkBool ++
            ((rows.filter rowHasStock).filter
              (fun r => !rowIsClearance r)).filter (fun r => !validOkBool r))))
        rows :=
      ((List.Perm.append_left _ inner).trans List.perm_append_comm).trans p1
    refine ⟨?_, ?_, rfl⟩
    · simpa [List.append_assoc] using outer
    · have := outer.length_eq
      simp only [List.length_append] at this
      simp only []
      omega

/-- C10: a stocked row whose creation-reason field is missing is never
treated as clearance — the `na=False` option makes the missing value
count as not containing the tag — so the row is excluded from the
clearance part and proceeds to the identifier-validity stage (the
eligible set). -/
theorem missing_reason_not_clearance (rows : List Row) (res : XlsxStats) (r : Row)
    (h : apply_xlsx_filters rows = .ok res) (hr : r ∈ rows)
    (hq : 0 < r.available_qty.getD 0) (hcr : r.creation_reason = none) :
    rowIsClearance r = false ∧ r ∉ res.clearance_products ∧
      r ∈ res.eligible_xlsx := by
  have hclear : rowIsClearance r = false := by simp [rowIsClearance, hcr]
  simp only [apply_xlsx_filters] at h
  split at h
  · exact absurd h (by simp)
  · injection h with h2
    subst h2
    have hmemhs : r ∈ rows.filter rowHasStock :=
      List.mem_filter.mpr ⟨hr, by simp [rowHasStock]; omega⟩
    refine ⟨hclear, ?_, ?_⟩
    · intro hmem
      have := (List.mem_filter.mp hmem).2
      rw [hclear] at this
      cases this
    · exact List.mem_filter.mpr ⟨hmemhs, by simp [hclear]⟩

/-- The classifier loop is equivalent to filtering the input by the
bucket each item is assigned: every item appears exactly in the list of
its own bucket, in encounter order. -/
theorem classify_api_eq_filters (items : List ResultItem) :
    classify_api items =
      ⟨items.filter (fun i => decide (bucketOf i = .publish_ready)),
       items.filter (fun i => decide (bucketOf i = .missing_ficha)),
       items.filter (fun i => decide (bucketOf i = .need_creation)),
       items.filter (fun i => decide (bucketOf i = .already_mayorista)),
       items.filter (fun i => decide (bucketOf i = .has_pcf_stock)),
       items.filter (fun i => decide (bucketOf i = .api_errors))⟩ := by
  induction items with
  | nil => rfl
  | cons i rest ih =>
    cases hb : bucketOf i <;>
      simp [classify_api, hb, ih, List.filter_cons]

/-- The six bucket lists of the classifier together are a permutation of
the input items: each item lands in exactly one bucket, none is
duplicated or dropped. -/
theorem classify_api_perm (items : List ResultItem) :
    List.Perm ((classify_api items).api_errors ++
      ((classify_api items).need_creation ++
        ((classify_api items).already_mayorista ++
          ((classify_api items).has_pcf_stock ++
            ((classify_api items).missing_ficha ++
              (classify_api items).publish_ready))))) items := by
  induction items with
  | nil => exact List.Perm.refl _
  | cons i rest ih =>
    have bump : ∀ (P X Y : List ResultItem), List.Perm X (i :: Y) →
        List.Perm (P ++ X) (i :: (P ++ Y)) := fun P X Y h =>
      (List.Perm.append_left P h).trans List.perm_middle
    cases hb : bucketOf i with
    | api_errors =>
      simp only [classify_api, hb]
      exact ih.cons i
    | need_creation =>
      simp only [classify_api, hb]
      exact (bump _ _ _ (List.Perm.refl _)).trans (ih.cons i)
    | already_mayorista =>
      simp only [classify_api, hb]
      exact (bump _ _ _ (bump _ _ _ (List.Perm.refl _))).trans (ih.cons i)
    | has_pcf_stock =>
      simp only [classify_api, hb]
      exact (bump _ _ _ (bump _ _ _ (bump _ _ _
        (List.Perm.refl _)))).trans (ih.cons i)
    | missing_ficha =>
      simp only [classify_api, hb]
      exact (bump _ _ _ (bump _ _ _ (bump _ _ _ (bump _ _ _
        (List.Perm.refl _))))).trans (ih.cons i)
    | publish_ready =>
      simp only [classify_api, hb]
      exact (bump _ _ _ (bump _ _ _ (bump _ _ _ (bump _ _ _ (bump _ _ _
        (List.Perm.refl _)))))).trans (ih.cons i)

/-- C1: the classifier assigns every candidate exactly one bucket by
first-match over the ordered tests — an error outcome always lands in
the error bucket whatever the other fields hold, a visible product
lands in the already-published bucket whatever its stock (the
visibility branch fires first), each bucket list is exactly the items
assigned to it, and together the buckets partition the input. -/
theorem classifier_first_match :
    (∀ (pid : Int) (r : Row) (m : Option Bool) (s : Option Int)
        (f : Option Bool) (msg : String),
        bucketOf ⟨pid, r, ⟨.error, m, s, f, msg⟩⟩ = .api_errors) ∧
    (∀ (pid : Int) (r : Row) (s : Option Int) (f : Option Bool) (msg : String),
        bucketOf ⟨pid, r, ⟨.ok, some true, s, f, msg⟩⟩ = .already_mayorista) ∧
    (∀ items rows,
        (classify_products items rows).need_creation_rows = rows ∧
        (classify_products items rows).publish_ready =
          items.filter (fun i => decide (bucketOf i = .publish_ready)) ∧
        (classify_products items rows).missing_ficha =
          items.filter (fun i => decide (bucketOf i = .missing_ficha)) ∧
        (classify_products items rows).need_creation =
          items.filter (fun i => decide (bucketOf i = .need_creation)) ∧
        (classify_products items rows).already_mayorista =
          items.filter (fun i => decide (bucketOf i = .already_mayorista)) ∧
        (classify_products items rows).has_pcf_stock =
          items.filter (fun i => decide (bucketOf i = .has_pcf_stock)) ∧
        (classify_products items rows).api_errors =
          items.filter (fun i => decide (bucketOf i = .api_errors))) ∧
    (∀ items rows,
        List.Perm ((classify_products items rows).api_errors ++
          ((classify_products items rows).need_creation ++
            ((classify_products items rows).already_mayorista ++
              ((classify_products items rows).has_pcf_stock ++
                ((classify_products items rows).missing_ficha ++
                  (classify_products items rows).publish_ready))))) items ∧
        (classify_products items rows).api_errors.length +
          (classify_products items rows).need_creation.length +
          (classify_products items rows).already_mayorista.length +
          (classify_products items rows).has_pcf_stock.length +
          (classify_products items rows).missing_ficha.length +
          (classify_products items rows).publish_ready.length =
          items.length) := by
  refine ⟨fun pid r m s f msg => rfl, fun pid r s f msg => rfl,
    fun items rows => ?_, fun items rows => ?_⟩
  · have h := classify_api_eq_filters items
    refine ⟨rfl, ?_, ?_, ?_, ?_, ?_, ?_⟩ <;>
      simp [classify_products, h]
  · have hp := classify_api_perm items
    have hlen := hp.length_eq
    simp only [List.length_append] at hlen
    refine ⟨hp, ?_⟩
    simp only [classify_products]
    omega
def wrowA : Row :=
  { ingram_part := "IM-A", description := .vStr "producto A",
    vendor_name := "ACME", vendor_part := "A-1", customer_price := 100,
    available_qty := some 5, creation_reason := some "NEW PRODUCT",
    category := "CAT", subcategory := "SUB", pcf_id := .vStr "123" }

/-- A row without stock, used by the witnesses. -/
def wrowB : Row :=
  { ingram_part := "IM-B", description := .vStr "producto B",
    vendor_name := "BETA", vendor_part := "B-1", customer_price := 200,
    available_qty := some 0, creation_reason := none,
    category := "CAT", subcategory := "SUB", pcf_id := .vStr "Sin ID" }

/-- A stocked row with a missing creation reason and an invalid
identifier, used by the witnesses. -/
def wrowC : Row :=
  { ingram_part := "IM-C", description := .vStr "producto C",
    vendor_name := "GAMMA", vendor_part := "C-1", customer_price := 300,
    available_qty := some 2, creation_reason := none,
    category := "CAT", subcategory := "SUB", pcf_id := .vStr "N/A" }

/-- The filter output on the three witness rows. -/
def wstats : XlsxStats :=
  { total := 3, sin_stock_ingram := 1, has_stock := [wrowA, wrowC],
    sin_stock_df := [wrowB], clearance := 0, clearance_products := [],
    eligible_xlsx := [wrowA, wrowC], has_pcf_id := [wrowA],
    no_pcf_id := [wrowC] }

/-- Witness for the C2 partition theorem on three concrete rows. -/
theorem xlsx_filters_partition_witness :
    apply_xlsx_filters [wrowA, wrowB, wrowC] = .ok wstats ∧
    ((wstats.sin_stock_df ++ wstats.clearance_products ++ wstats.has_pcf_id ++
        wstats.no_pcf_id).Perm [wrowA, wrowB, wrowC] ∧
      wstats.sin_stock_df.length + wstats.clearance_products.length +
        wstats.has_pcf_id.length + wstats.no_pcf_id.length =
        [wrowA, wrowB, wrowC].length ∧
      wstats.total = [wrowA, wrowB, wrowC].length) :=
  ⟨by decide, xlsx_filters_partition [wrowA, wrowB, wrowC] wstats (by decide)⟩

/-- Witness for the C10 theorem at the stocked, reason-less row. -/
theorem missing_reason_not_clearance_witness :
    apply_xlsx_filters [wrowA, wrowB, wrowC] = .ok wstats ∧
    wrowC ∈ [wrowA, wrowB, wrowC] ∧ 0 < wrowC.available_qty.getD 0 ∧
    wrowC.creation_reason = none ∧
    (rowIsClearance wrowC = false ∧ wrowC ∉ wstats.clearance_products ∧
      wrowC ∈ wstats.eligible_xlsx) :=
  ⟨by decide, by decide, by decide, by decide,
    missing_reason_not_clearance [wrowA, wrowB, wrowC] wstats wrowC (by decide)
      (by decide) (by decide) (by decide)⟩

/-- A value accepted by the identifier-validity predicate never hits the
skip branch of the batch conversion: `int(float(...))` succeeds on it
and returns its converted identifier. -/
theorem valid_convert (v : CellVal) (h : is_valid_pcf_id v = .ok true) :
    convert_id v = .ok (some (converted_pcf_id v)) := by
  have hne : v ≠ .vNone := by
    intro hv; subst hv; simp [is_valid_pcf_id, pdIsna] at h
  unfold is_valid_pcf_id at h
  simp only [String.toList] at h
  split at h
  · cases h
  · split at h
    · cases h
    · split at h
      · cases h
      · rename_i f hf
        split at h
        · rename_i n ht
          have hfl : pyFloatOfVal v = .ok f := by
            cases v with
            | vNone => exact absurd rfl hne
            | vStr s => simp only [pyFloatOfVal, String.toList, hf]
            | vInt m => simp only [pyFloatOfVal, String.toList, hf]
          have hc : convert_id v = .ok (some n) := by
            simp [convert_id, hfl, ht]
          rw [hc]
          simp [converted_pcf_id, hc]
        · cases h
        · cases h
        · cases h

/-- Under the validity precondition, the task-building loop of the batch
lookup produces exactly one task per row, in order, with the converted
identifier. -/
theorem batch_tasks_all_valid (rows : List Row)
    (h : ∀ r ∈ rows, is_valid_pcf_id r.pcf_id = .ok true) :
    batch_tasks rows = .ok (rows.map (fun r => (converted_pcf_id r.pcf_id, r))) := by
  induction rows with
  | nil => rfl
  | cons r rest ih =>
    have h1 := valid_convert _ (h r (List.mem_cons_self r rest))
    have h2 := ih (fun x hx => h x (List.mem_cons_of_mem r hx))
    simp only [batch_tasks, h1, h2]
    rfl

/-- C7: for every row of the valid-identifier set, the batch lookup
produces exactly one result, associated with that row — the skip branch
of the integer conversion is unreachable under the validity
precondition, and whatever the oracle answers for an identifier
(including errors and raised request exceptions) the row's result is
present, carrying the interpretation of that answer. -/
theorem batch_lookup_one_result_per_row (oracle : Int → HttpResponse)
    (rows : List Row)
    (h : ∀ r ∈ rows, is_valid_pcf_id r.pcf_id = .ok true) :
    check_products_batch oracle rows =
      .ok (rows.map (fun r =>
        ⟨converted_pcf_id r.pcf_id, r,
          check_product_api (oracle (converted_pcf_id r.pcf_id))⟩)) := by
  simp only [check_products_batch, batch_tasks_all_valid rows h, List.map_map]
  rfl

/-- Witness for the C7 theorem: one valid row against an oracle whose
every lookup raises a request exception — the row still gets exactly
one (error) result. -/
theorem batch_lookup_one_result_per_row_witness :
    (∀ r ∈ [wrowA], is_valid_pcf_id r.pcf_id = .ok true) ∧
    check_products_batch (fun _ => .requestExn "timeout") [wrowA] =
      .ok ([wrowA].map (fun r =>
        ⟨converted_pcf_id r.pcf_id, r,
          check_product_api ((fun _ => HttpResponse.requestExn "timeout")
            (converted_pcf_id r.pcf_id))⟩)) :=
  ⟨by decide,
    batch_lookup_one_result_per_row (fun _ => .requestExn "timeout") [wrowA]
      (by decide)⟩

/-- C6 fails as stated: with the local-file source, a price file that is
found but cannot be parsed raises out of the run — no placeholder
artifact is produced. -/
theorem local_parse_failure_crashes :
    run_monitor .localFile (.ok []) (some (.error "ParserError")) =
      .error .sourceParse := rfl

/-- C6 amended: a remote-sheet failure (unreachable or unparseable) and
a missing local price file both end the run cleanly with the empty
placeholder report; only an unparseable local file escapes as an
unhandled exception. -/
theorem source_failure_placeholder :
    (∀ (msg : String) (lf : Option (Except String (List Row))),
        run_monitor .gsheet (.error msg) lf = .ok .placeholder) ∧
    (∀ (g : Except String (List Row)),
        run_monitor .localFile g none = .ok .placeholder) :=
  ⟨fun _ _ => rfl, fun _ => rfl⟩
